import Mathlib

/-!
Verification of the media-attachment lifecycle controller of Threema Web.

The development shallowly embeds:
* the `bufferToUrl` filter (src/filters.ts, lines 221-241), including the
  base64 encoding performed by `String.fromCharCode` + `btoa`;
* the message-media directive controller (src/unnamed/part_000): its
  initialisation, the `thumbnailInView` visibility handler with its debounce
  timer and asynchronous thumbnail fetch, and the `download` content-fetch
  pipeline with its success and failure continuations.

Asynchrony is modelled with explicit events: the controller functions are
pure state transformers returning the new controller state together with the
list of observable effects (external fetch requests, dialogs, logs, saves).
The debounce timer and the outstanding thumbnail promise are tracked by two
boolean fields (`timerPending`, `fetchInFlight`); the events `timerFires`,
`thumbFetchResolves` and `thumbFetchRejects` model the timer callback and the
settlement of the `requestThumbnail` promise exactly as the source handlers
do (in particular, `requestThumbnail(...).then(...)` attaches no rejection
handler, so `thumbFetchRejects` mutates nothing).
-/

namespace ThreemaWeb

/-! ### Base64 (the `btoa` builtin used by `bufferToUrl`) -/

/-- The standard base64 alphabet used by `btoa`. -/
def b64Alphabet : List Char :=
  ("ABCDEFGHIJKLMNOPQRSTUVWXYZabcdefghijklmnopqrstuvwxyz0123456789+/").toList

/-- Sextet value to base64 character. -/
def toB64Char (n : Nat) : Char := b64Alphabet.getD n 'A'

/-- Index of a character in the alphabet (helper for decoding). -/
def b64IndexOf (c : Char) : List Char → Nat
  | [] => 0
  | d :: rest => if d = c then 0 else b64IndexOf c rest + 1

/-- Base64 character back to its sextet value; `'='` padding maps to `none`. -/
def fromB64 (c : Char) : Option Nat :=
  if c = '=' then none else some (b64IndexOf c b64Alphabet)

/-- Encode a byte list in chunks of three bytes, emitting four base64
characters per chunk, with `'='` padding for a short final chunk — the
semantics of `btoa` applied to the binary string that `bufferToUrl` builds
with `String.fromCharCode`. -/
def encodeChunks : List Nat → List Char
  | [] => []
  | [a] => [toB64Char (a / 4), toB64Char (a % 4 * 16), '=', '=']
  | [a, b] => [toB64Char (a / 4), toB64Char (a % 4 * 16 + b / 16),
               toB64Char (b % 16 * 4), '=']
  | a :: b :: c :: rest =>
      toB64Char (a / 4) :: toB64Char (a % 4 * 16 + b / 16) ::
      toB64Char (b % 16 * 4 + c / 64) :: toB64Char (c % 64) :: encodeChunks rest

/-- The base64 string for a list of bytes. -/
def b64encode (l : List Nat) : String := String.mk (encodeChunks l)

/-- Decode sextets (with `none` for padding) back to bytes, four at a time —
the semantics of `atob`. -/
def decodeQuads : List (Option Nat) → List Nat
  | [some x, some y, none, none] => [x * 4 + y / 16]
  | [some x, some y, some z, none] => [x * 4 + y / 16, y % 16 * 16 + z / 4]
  | some x :: some y :: some z :: some w :: rest =>
      (x * 4 + y / 16) :: (y % 16 * 16 + z / 4) :: (z % 4 * 64 + w) :: decodeQuads rest
  | _ => []

/-- Standard base64 decoding of a string. -/
def b64decode (s : String) : List Nat := decodeQuads (s.toList.map fromB64)

theorem fromB64_toB64 : ∀ n < 64, fromB64 (toB64Char n) = some n := by decide

theorem fromB64_pad : fromB64 '=' = none := rfl

/-- Base64 round-trip on byte lists. -/
theorem decodeQuads_encodeChunks (l : List Nat) (h : ∀ b ∈ l, b < 256) :
    decodeQuads ((encodeChunks l).map fromB64) = l := by
  induction l using encodeChunks.induct with
  | case1 => rfl
  | case2 a =>
    have ha : a < 256 := h a (by simp)
    simp only [encodeChunks, List.map_cons, List.map_nil]
    rw [fromB64_toB64 _ (by omega), fromB64_toB64 _ (by omega), fromB64_pad]
    simp only [decodeQuads, List.cons.injEq, and_true]
    omega
  | case3 a b =>
    have ha : a < 256 := h a (by simp)
    have hb : b < 256 := h b (by simp)
    simp only [encodeChunks, List.map_cons, List.map_nil]
    rw [fromB64_toB64 _ (by omega), fromB64_toB64 _ (by omega),
        fromB64_toB64 _ (by omega), fromB64_pad]
    simp only [decodeQuads, List.cons.injEq, and_true]
    constructor
    · omega
    · omega
  | case4 a b c rest ih =>
    have ha : a < 256 := h a (by simp)
    have hb : b < 256 := h b (by simp)
    have hc : c < 256 := h c (by simp)
    have ih' := ih (fun x hx => h x (by simp [hx]))
    simp only [encodeChunks, List.map_cons]
    rw [fromB64_toB64 _ (by omega), fromB64_toB64 _ (by omega),
        fromB64_toB64 _ (by omega), fromB64_toB64 _ (by omega)]
    simp only [decodeQuads, List.cons.injEq]
    refine ⟨by omega, by omega, by omega, ih'⟩

theorem b64decode_b64encode (l : List Nat) (h : ∀ b ∈ l, b < 256) :
    b64decode (b64encode l) = l :=
  decodeQuads_encodeChunks l h

/-! ### Observable effects

Every interaction of the controller with its collaborators (the web client
service, `$mdDialog`, `$log`, `saveAs`, the mediabox) is recorded as an
effect. -/

/-- A displayable resource returned by the `bufferToUrl` filter: the URI and
whether it was passed through `$sce.trustAsResourceUrl`. -/
structure Resource where
  uri : String
  trusted : Bool
  deriving DecidableEq

inductive Effect where
  | requestThumbnail : Effect
  | requestBlob : String → Effect
  | logDebug : String → Effect
  | logWarn : String → Effect
  | logError : String → Effect
  | alert : String → Effect
  | setMedia : List Nat → String → String → String → Effect
  | saveAs : List Nat → String → Effect
  | playAudio : List Nat → Effect
  deriving DecidableEq

/-! ### The `bufferToUrl` filter (src/filters.ts lines 221-241)

The JavaScript truthiness test `!buffer` is false for every present
`ArrayBuffer`, including one of byte length zero; only `null`/`undefined`
(modelled as `none`) take the early-return branch. -/

def bufferToUrl (buffer : Option (List Nat)) (mimeType : String) (trust : Bool) :
    Resource × List Effect :=
  match buffer with
  | none =>
      ({ uri := "", trusted := false },
       [Effect.logError ("Could not apply bufferToUrl filter: buffer is")])
  | some bytes =>
      let uri := "data:" ++ mimeType ++ ";base64," ++ b64encode bytes
      if trust then
        ({ uri := uri, trusted := true }, [])
      else
        ({ uri := uri, trusted := false }, [])

/-! ### Message model -/

structure Thumbnail where
  img : Option (List Nat)
  width : Nat
  height : Nat
  deriving DecidableEq

structure FileInfo where
  type : String
  deriving DecidableEq

structure LocationInfo where
  lat : Int
  lon : Int
  deriving DecidableEq

structure Message where
  type : String
  id : String
  temporaryId : Option String
  thumbnail : Option Thumbnail
  file : FileInfo
  location : Option LocationInfo
  caption : Option String
  deriving DecidableEq

structure BlobInfo where
  buffer : List Nat
  filename : String
  mimetype : String
  deriving DecidableEq

/-! ### Controller state (src/unnamed/part_000, directive controller)

`timerPending` models a live `loadingThumbnailTimeout` debounce timer;
`fetchInFlight` models an unsettled `requestThumbnail` promise. -/

structure CtrlState where
  type : String
  downloading : Bool
  thumbnailDownloading : Bool
  downloaded : Bool
  uploading : Bool
  isAnimGif : Bool
  showThumbnail : Bool
  thumbnail : Option Resource
  location : Option LocationInfo
  blobBuffer : Option (List Nat)
  wasInView : Bool
  timerPending : Bool
  fetchInFlight : Bool
  deriving DecidableEq

/-- Controller initialisation (lines 53-81 and the location block at lines
123-128: `downloaded` starts false and is set to true exactly when
`message.location` is defined, in which case the location is stored). -/
def controllerInit (m : Message) : CtrlState :=
  let uploading := m.temporaryId.isSome
  let isAnimGif := !uploading && m.type == "file" && m.file.type == "image/gif"
  { type := m.type
    downloading := false
    thumbnailDownloading := false
    downloaded := m.location.isSome
    uploading := uploading
    isAnimGif := isAnimGif
    showThumbnail := m.thumbnail.isSome && (m.type != "file" || isAnimGif)
    thumbnail := none
    location := m.location
    blobBuffer := none
    wasInView := false
    timerPending := false
    fetchInFlight := false }

/-! ### Thumbnail visibility handler (lines 82-121) -/

def thumbnailInView (m : Message) (fmt : String) (st : CtrlState)
    (inView : Bool) : CtrlState × List Effect :=
  if m.thumbnail = none ∨ st.wasInView = inView then
    (st, [])
  else
    let st1 := { st with wasInView := inView }
    if inView = false then
      ({ st1 with timerPending := false, thumbnailDownloading := false,
                  thumbnail := none }, [])
    else
      if st1.thumbnail = none then
        match m.thumbnail with
        | some t =>
          match t.img with
          | some img =>
              let r := bufferToUrl (some img) fmt true
              ({ st1 with thumbnail := some r.1 }, r.2)
          | none =>
              ({ st1 with thumbnailDownloading := true, timerPending := true }, [])
        | none => (st1, [])
      else
        (st1, [])

/-- The debounce timer callback (line 105): when the timer is still pending
it fires, issuing the `requestThumbnail` call. -/
def timerFires (st : CtrlState) : CtrlState × List Effect :=
  if st.timerPending then
    ({ st with timerPending := false, fetchInFlight := true },
     [Effect.requestThumbnail])
  else
    (st, [])

/-- Resolution of the `requestThumbnail` promise (lines 108-116): the
`then` handler unconditionally stores the converted thumbnail and clears
`thumbnailDownloading` — there is no staleness check. -/
def thumbFetchResolves (fmt : String) (st : CtrlState) (img : List Nat) :
    CtrlState × List Effect :=
  if st.fetchInFlight then
    let r := bufferToUrl (some img) fmt true
    ({ st with fetchInFlight := false, thumbnail := some r.1,
               thumbnailDownloading := false }, r.2)
  else
    (st, [])

/-- Rejection of the `requestThumbnail` promise: the source attaches no
rejection handler to `.then((img) => ...)`, so nothing runs — the state is
untouched and no effect is produced. -/
def thumbFetchRejects (st : CtrlState) : CtrlState × List Effect :=
  if st.fetchInFlight then
    ({ st with fetchInFlight := false }, [])
  else
    (st, [])

/-! ### Content download pipeline (lines 170-239) -/

/-- The `download` entry point (lines 171-179): re-entrancy guard, then mark
downloading and issue the blob request. -/
def download (m : Message) (st : CtrlState) : CtrlState × List Effect :=
  if st.downloading then
    (st, [Effect.logDebug ("download already in progress...")])
  else
    ({ st with downloading := true }, [Effect.requestBlob m.id])

/-- The success continuation of `requestBlob` (lines 180-215). -/
def downloadSuccess (m : Message) (st : CtrlState) (blob : BlobInfo) :
    CtrlState × List Effect :=
  let st1 := { st with downloading := false, downloaded := true }
  if m.type = "image" then
    (st1, [Effect.setMedia blob.buffer blob.filename blob.mimetype
             (m.caption.getD "")])
  else if m.type = "video" then
    (st1, [Effect.saveAs blob.buffer blob.filename])
  else if m.type = "file" then
    if m.file.type = "image/gif" then
      ({ st1 with blobBuffer := some blob.buffer, showThumbnail := false }, [])
    else
      (st1, [Effect.saveAs blob.buffer blob.filename])
  else if m.type = "audio" then
    (st1, [Effect.playAudio blob.buffer])
  else
    (st1, [Effect.logWarn ("Ignored download request for message type")])

/-- The failure continuation of `requestBlob` (lines 217-238): clear the
downloading flag, pick the message for the error reason, show one alert. -/
def downloadFailure (st : CtrlState) (error : String) : CtrlState × List Effect :=
  let contentString :=
    if error = "blobDownloadFailed" then "error.BLOB_DOWNLOAD_FAILED"
    else if error = "blobDecryptFailed" then "error.BLOB_DECRYPT_FAILED"
    else "error.ERROR_OCCURRED"
  ({ st with downloading := false }, [Effect.alert contentString])

/-! ### Claim theorems -/

/-- C1: when `downloading` (the spec's `isFetchingContent`) is already true,
`download()` is a no-op: the controller state is returned entirely unchanged
and the only effect is a debug log — in particular no second `requestBlob`
fetch is issued, so at most one content fetch is outstanding per attachment. -/
theorem c1_download_reentrancy_guard (m : Message) (st : CtrlState)
    (h : st.downloading = true) :
    download m st = (st, [Effect.logDebug ("download already in progress...")]) := by
  simp [download, h]

theorem c1_download_reentrancy_guard_witness :
    ({ controllerInit ⟨"image", "42", none, none, ⟨""⟩, none, none⟩ with
        downloading := true } : CtrlState).downloading = true
    ∧ download ⟨"image", "42", none, none, ⟨""⟩, none, none⟩
        { controllerInit ⟨"image", "42", none, none, ⟨""⟩, none, none⟩ with
            downloading := true }
      = ({ controllerInit ⟨"image", "42", none, none, ⟨""⟩, none, none⟩ with
            downloading := true },
         [Effect.logDebug ("download already in progress...")]) :=
  ⟨rfl, c1_download_reentrancy_guard _ _ rfl⟩

/-- Message fixture for claim C2. -/
def c2Message : Message := ⟨"image", "42", none, none, ⟨""⟩, none, none⟩

/-- State reached by: fresh image message, `download()`, successful fetch,
`download()` again — a second content fetch is in flight while `downloaded`
is already true. -/
def c2State : CtrlState :=
  (download c2Message
    (downloadSuccess c2Message
      (download c2Message (controllerInit c2Message)).1
      ⟨[1], "f.png", "image/png"⟩).1).1

/-- C2 counterexample: when the content fetch that fails with
`blobDecryptFailed` was initiated by a `download()` call made after an
earlier successful fetch, the resulting state still has `downloaded = true`
(the failure handler never resets it), contradicting the claim that the
resulting state has `isContentReady == false` for every attachment. -/
theorem c2_decrypt_failure_counterexample :
    c2State.downloading = true
    ∧ (downloadFailure c2State ("blobDecryptFailed")).1.downloaded = true
    ∧ (downloadFailure c2State ("blobDecryptFailed")).2
        = [Effect.alert ("error.BLOB_DECRYPT_FAILED")] := by
  decide

/-- C2 (amended): a content-fetch failure sets `downloading` to false,
leaves `downloaded` unchanged — hence false whenever the attachment had not
already completed a successful fetch — and shows exactly one dismissible
alert: the decryption-specific message for `blobDecryptFailed`, the
download-specific message for `blobDownloadFailed`, the generic
`error.ERROR_OCCURRED` for any other reason. -/
theorem c2_download_failure_amended (st : CtrlState) (e : String)
    (h : st.downloaded = false) :
    (downloadFailure st ("blobDecryptFailed")).1.downloading = false
    ∧ (downloadFailure st ("blobDecryptFailed")).1.downloaded = false
    ∧ (downloadFailure st ("blobDecryptFailed")).2
        = [Effect.alert ("error.BLOB_DECRYPT_FAILED")]
    ∧ (downloadFailure st ("blobDownloadFailed")).2
        = [Effect.alert ("error.BLOB_DOWNLOAD_FAILED")]
    ∧ (e ≠ "blobDecryptFailed" → e ≠ "blobDownloadFailed" →
        (downloadFailure st e).2 = [Effect.alert ("error.ERROR_OCCURRED")]) := by
  refine ⟨rfl, by simp [downloadFailure, h], by simp [downloadFailure],
          by simp [downloadFailure], ?_⟩
  intro h1 h2
  simp [downloadFailure, h1, h2]

theorem c2_download_failure_amended_witness :
    (controllerInit c2Message).downloaded = false
    ∧ ((downloadFailure (controllerInit c2Message) ("blobDecryptFailed")).1.downloading = false
       ∧ (downloadFailure (controllerInit c2Message) ("blobDecryptFailed")).1.downloaded = false
       ∧ (downloadFailure (controllerInit c2Message) ("blobDecryptFailed")).2
           = [Effect.alert ("error.BLOB_DECRYPT_FAILED")]
       ∧ (downloadFailure (controllerInit c2Message) ("blobDownloadFailed")).2
           = [Effect.alert ("error.BLOB_DOWNLOAD_FAILED")]
       ∧ ("timeout" ≠ "blobDecryptFailed" → "timeout" ≠ "blobDownloadFailed" →
           (downloadFailure (controllerInit c2Message) ("timeout")).2
             = [Effect.alert ("error.ERROR_OCCURRED")])) :=
  ⟨rfl, c2_download_failure_amended (controllerInit c2Message) ("timeout") rfl⟩

/-- Message fixture for claim C3: a thumbnail with no embedded bytes. -/
def c3Message : Message := ⟨"image", "7", none, some ⟨none, 10, 10⟩, ⟨""⟩, none, none⟩

/-- State with a thumbnail fetch in flight: entered view, debounce fired. -/
def c3InFlight : CtrlState :=
  (timerFires
    (thumbnailInView c3Message ("image/jpeg") (controllerInit c3Message) true).1).1

/-- C3 counterexample: when the deferred thumbnail fetch fails, the source
attaches no rejection handler, so `thumbnailDownloading` stays true — the
claim that the controller clears `isFetchingThumbnail` is false (the
remaining parts hold: the thumbnail stays null and no dialog is shown). -/
theorem c3_thumbnail_failure_counterexample :
    (thumbFetchRejects c3InFlight).1.thumbnailDownloading = true
    ∧ (thumbFetchRejects c3InFlight).1.thumbnail = none
    ∧ (thumbFetchRejects c3InFlight).2 = [] := by
  decide

/-- C3 (amended): a failed deferred thumbnail fetch runs no handler at all:
the thumbnail stays null and no user-visible dialog is produced, but
`isFetchingThumbnail` is left exactly as it was — it is not cleared (only a
later visibility exit resets it). -/
theorem c3_thumbnail_failure_amended (st : CtrlState)
    (h : st.fetchInFlight = true) (ht : st.thumbnail = none) :
    (thumbFetchRejects st).1.thumbnail = none
    ∧ (thumbFetchRejects st).1.thumbnailDownloading = st.thumbnailDownloading
    ∧ (thumbFetchRejects st).2 = [] := by
  simp [thumbFetchRejects, h, ht]

theorem c3_thumbnail_failure_amended_witness :
    (c3InFlight.fetchInFlight = true ∧ c3InFlight.thumbnail = none)
    ∧ ((thumbFetchRejects c3InFlight).1.thumbnail = none
       ∧ (thumbFetchRejects c3InFlight).1.thumbnailDownloading
           = c3InFlight.thumbnailDownloading
       ∧ (thumbFetchRejects c3InFlight).2 = []) :=
  ⟨⟨rfl, rfl⟩, c3_thumbnail_failure_amended c3InFlight rfl rfl⟩

/-- Message fixture for claim C4: a thumbnail with no embedded bytes. -/
def c4Message : Message := ⟨"image", "8", none, some ⟨none, 32, 32⟩, ⟨""⟩, none, none⟩

/-- State with a thumbnail fetch in flight for `c4Message`. -/
def c4InFlight : CtrlState :=
  (timerFires
    (thumbnailInView c4Message ("image/jpeg") (controllerInit c4Message) true).1).1

/-- State after the visibility exit that "cancels" the in-flight fetch. -/
def c4AfterExit : CtrlState :=
  (thumbnailInView c4Message ("image/jpeg") c4InFlight false).1

/-- C4 counterexample: the completion handler performs no validity-flag
check, so when the promise of the fetch "cancelled" by `thumbnailInView
false` later resolves, it does mutate the state: the thumbnail becomes
non-null after the exit and before any re-entry, contradicting the claim. -/
theorem c4_stale_completion_counterexample :
    c4AfterExit.thumbnail = none
    ∧ c4AfterExit.thumbnailDownloading = false
    ∧ c4AfterExit.fetchInFlight = true
    ∧ (thumbFetchResolves ("image/jpeg") c4AfterExit [7]).1.thumbnail
        = some (bufferToUrl (some [7]) ("image/jpeg") true).1 := by
  decide

/-- C4 (amended): a visibility exit synchronously clears the thumbnail state,
but the late-arriving completion of an already in-flight fetch is not
discarded: with no staleness check in the handler, its resolution writes the
converted thumbnail into the state (and clears `isFetchingThumbnail`) even
though the attachment is out of view. Only a fetch still in its debounce
window is truly cancelled. -/
theorem c4_stale_completion_amended (m : Message) (fmt : String)
    (st : CtrlState) (img : List Nat)
    (hm : m.thumbnail ≠ none) (hv : st.wasInView = true)
    (hf : st.fetchInFlight = true) :
    (thumbnailInView m fmt st false).1.thumbnail = none
    ∧ (thumbnailInView m fmt st false).1.thumbnailDownloading = false
    ∧ (thumbFetchResolves fmt (thumbnailInView m fmt st false).1 img).1.thumbnail
        = some (bufferToUrl (some img) fmt true).1
    ∧ (thumbFetchResolves fmt (thumbnailInView m fmt st false).1 img).1.thumbnailDownloading
        = false := by
  simp [thumbnailInView, thumbFetchResolves, hm, hv, hf]

theorem c4_stale_completion_amended_witness :
    (c4Message.thumbnail ≠ none ∧ c4InFlight.wasInView = true
      ∧ c4InFlight.fetchInFlight = true)
    ∧ ((thumbnailInView c4Message ("image/jpeg") c4InFlight false).1.thumbnail = none
       ∧ (thumbnailInView c4Message ("image/jpeg") c4InFlight false).1.thumbnailDownloading
           = false
       ∧ (thumbFetchResolves ("image/jpeg")
            (thumbnailInView c4Message ("image/jpeg") c4InFlight false).1 [7]).1.thumbnail
           = some (bufferToUrl (some [7]) ("image/jpeg") true).1
       ∧ (thumbFetchResolves ("image/jpeg")
            (thumbnailInView c4Message ("image/jpeg") c4InFlight false).1 [7]).1.thumbnailDownloading
           = false) :=
  ⟨⟨by decide, rfl, rfl⟩,
   c4_stale_completion_amended c4Message ("image/jpeg") c4InFlight [7]
     (by decide) rfl rfl⟩

/-- C5: with an embedded thumbnail byte buffer present, a transition to
visible synchronously stores exactly the trusted conversion
`bufferToUrl img fmt true` as the thumbnail, produces no effect (no fetch
request), schedules no timer, and leaves `thumbnailDownloading` untouched —
the whole result state differs from the input only in `wasInView` and
`thumbnail`. -/
theorem c5_embedded_thumbnail (m : Message) (fmt : String) (st : CtrlState)
    (t : Thumbnail) (img : List Nat)
    (hm : m.thumbnail = some t) (hi : t.img = some img)
    (hv : st.wasInView = false) (ht : st.thumbnail = none) :
    thumbnailInView m fmt st true
      = ({ st with
            wasInView := true
            thumbnail := some (bufferToUrl (some img) fmt true).1 }, []) := by
  simp [thumbnailInView, hm, hi, hv, ht, bufferToUrl]

/-- Message fixture for claim C5: an embedded thumbnail buffer. -/
def c5Message : Message :=
  ⟨"image", "9", none, some ⟨some [1, 2], 16, 16⟩, ⟨""⟩, none, none⟩

theorem c5_embedded_thumbnail_witness :
    (c5Message.thumbnail = some ⟨some [1, 2], 16, 16⟩
      ∧ (controllerInit c5Message).wasInView = false
      ∧ (controllerInit c5Message).thumbnail = none)
    ∧ thumbnailInView c5Message ("image/jpeg") (controllerInit c5Message) true
        = ({ controllerInit c5Message with
              wasInView := true
              thumbnail := some (bufferToUrl (some [1, 2]) ("image/jpeg") true).1 }, []) :=
  ⟨⟨rfl, rfl, rfl⟩,
   c5_embedded_thumbnail c5Message ("image/jpeg") (controllerInit c5Message)
     ⟨some [1, 2], 16, 16⟩ [1, 2] rfl rfl rfl rfl⟩

/-- C6: without an embedded thumbnail buffer, entering view and leaving it
again before the debounce timer fires issues no fetch request at all (both
calls produce no effects, the pending timer is cancelled so a later timer
event is a no-op), and after the exit `thumbnailDownloading = false` and
`thumbnail = none`. -/
theorem c6_debounce_cancel (m : Message) (fmt : String)
    (himg : ∀ t, m.thumbnail = some t → t.img = none) :
    (thumbnailInView m fmt (controllerInit m) true).2 = []
    ∧ (thumbnailInView m fmt
        (thumbnailInView m fmt (controllerInit m) true).1 false).2 = []
    ∧ (thumbnailInView m fmt
        (thumbnailInView m fmt (controllerInit m) true).1 false).1.thumbnailDownloading
        = false
    ∧ (thumbnailInView m fmt
        (thumbnailInView m fmt (controllerInit m) true).1 false).1.thumbnail = none
    ∧ (thumbnailInView m fmt
        (thumbnailInView m fmt (controllerInit m) true).1 false).1.timerPending = false
    ∧ timerFires (thumbnailInView m fmt
        (thumbnailInView m fmt (controllerInit m) true).1 false).1
        = ((thumbnailInView m fmt
             (thumbnailInView m fmt (controllerInit m) true).1 false).1, []) := by
  rcases hm : m.thumbnail with _ | t
  · simp [thumbnailInView, timerFires, controllerInit, hm]
  · have hi := himg t hm
    simp [thumbnailInView, timerFires, controllerInit, hm, hi]

/-- Message fixture for claim C6: a thumbnail with no embedded bytes. -/
def c6Message : Message := ⟨"image", "10", none, some ⟨none, 16, 16⟩, ⟨""⟩, none, none⟩

theorem c6_debounce_cancel_witness :
    (∀ t, c6Message.thumbnail = some t → t.img = none)
    ∧ ((thumbnailInView c6Message ("image/jpeg") (controllerInit c6Message) true).2 = []
       ∧ (thumbnailInView c6Message ("image/jpeg")
           (thumbnailInView c6Message ("image/jpeg") (controllerInit c6Message) true).1
           false).2 = []
       ∧ (thumbnailInView c6Message ("image/jpeg")
           (thumbnailInView c6Message ("image/jpeg") (controllerInit c6Message) true).1
           false).1.thumbnailDownloading = false
       ∧ (thumbnailInView c6Message ("image/jpeg")
           (thumbnailInView c6Message ("image/jpeg") (controllerInit c6Message) true).1
           false).1.thumbnail = none
       ∧ (thumbnailInView c6Message ("image/jpeg")
           (thumbnailInView c6Message ("image/jpeg") (controllerInit c6Message) true).1
           false).1.timerPending = false
       ∧ timerFires (thumbnailInView c6Message ("image/jpeg")
           (thumbnailInView c6Message ("image/jpeg") (controllerInit c6Message) true).1
           false).1
           = ((thumbnailInView c6Message ("image/jpeg")
                (thumbnailInView c6Message ("image/jpeg") (controllerInit c6Message) true).1
                false).1, [])) :=
  ⟨fun t ht => by cases ht; rfl,
   c6_debounce_cancel c6Message ("image/jpeg") (fun t ht => by cases ht; rfl)⟩

/-- Concrete base64 sanity check: the bytes 0x01 0x02 encode to "AQI=". -/
theorem b64encode_byte_pair : b64encode [1, 2] = "AQI=" := by decide

/-- C7: `bufferToUrl` applied to a non-empty byte buffer with MIME type
`image/png` yields the data URI `data:image/png;base64,<payload>` whose
base64 payload decodes back to exactly the original bytes. -/
theorem c7_bufferToUrl_roundtrip (bytes : List Nat)
    (hb : ∀ b ∈ bytes, b < 256) (_hne : bytes ≠ []) :
    (bufferToUrl (some bytes) ("image/png") true).1.uri
      = "data:image/png;base64," ++ b64encode bytes
    ∧ b64decode (b64encode bytes) = bytes :=
  ⟨rfl, b64decode_b64encode bytes hb⟩

theorem c7_bufferToUrl_roundtrip_witness :
    ((∀ b ∈ ([1, 2] : List Nat), b < 256) ∧ ([1, 2] : List Nat) ≠ [])
    ∧ ((bufferToUrl (some [1, 2]) ("image/png") true).1.uri
        = "data:image/png;base64," ++ b64encode [1, 2]
       ∧ b64decode (b64encode [1, 2]) = [1, 2]) :=
  ⟨⟨by decide, by decide⟩, c7_bufferToUrl_roundtrip [1, 2] (by decide) (by decide)⟩

/-- C8 counterexample: a present buffer of byte length zero is truthy in
JavaScript, so it does not take the error branch: the result is the data URI
with an empty payload — not the empty string — and nothing is logged. -/
theorem c8_empty_buffer_counterexample :
    (bufferToUrl (some []) ("image/png") true).1.uri = "data:image/png;base64,"
    ∧ (bufferToUrl (some []) ("image/png") true).1.uri ≠ ""
    ∧ (bufferToUrl (some []) ("image/png") true).2 = [] := by
  decide

/-- C8 (amended): `bufferToUrl` is total (never throws). For an absent
(null/undefined) buffer it logs exactly one error and returns the empty
resource. A present zero-length buffer, however, passes the truthiness check
`!buffer`: it is converted normally, yielding the data URI with an empty
base64 payload and no log. -/
theorem c8_empty_buffer_amended (mt : String) (trust : Bool) :
    bufferToUrl none mt trust
      = ({ uri := "", trusted := false },
         [Effect.logError ("Could not apply bufferToUrl filter: buffer is")])
    ∧ (bufferToUrl (some []) mt trust).1.uri = "data:" ++ mt ++ ";base64,"
    ∧ (bufferToUrl (some []) mt trust).2 = [] := by
  refine ⟨rfl, ?_, ?_⟩ <;> cases trust <;>
    simp [bufferToUrl, b64encode, encodeChunks]

/-- C9: for a `file` message of subtype `image/gif`, a successful download
suppresses the thumbnail, stores the fetched bytes inline in `blobBuffer`,
and produces no effect (in particular no file-save); for any other `file`
subtype it triggers exactly a file-save action. -/
theorem c9_file_gif_dispatch (m : Message) (st : CtrlState) (blob : BlobInfo)
    (hf : m.type = "file") :
    (m.file.type = "image/gif" →
      downloadSuccess m st blob
        = ({ st with
              downloading := false
              downloaded := true
              blobBuffer := some blob.buffer
              showThumbnail := false }, []))
    ∧ (m.file.type ≠ "image/gif" →
      downloadSuccess m st blob
        = ({ st with downloading := false, downloaded := true },
           [Effect.saveAs blob.buffer blob.filename])) := by
  constructor
  · intro hg
    simp [downloadSuccess, hf, hg]
  · intro hg
    simp [downloadSuccess, hf, hg]

/-- Message fixture for claim C9: a gif file message. -/
def c9Message : Message := ⟨"file", "11", none, none, ⟨"image/gif"⟩, none, none⟩

theorem c9_file_gif_dispatch_witness :
    c9Message.type = "file"
    ∧ ((c9Message.file.type = "image/gif" →
        downloadSuccess c9Message (controllerInit c9Message) ⟨[3], "a.gif", "image/gif"⟩
          = ({ controllerInit c9Message with
                downloading := false
                downloaded := true
                blobBuffer := some [3]
                showThumbnail := false }, []))
       ∧ (c9Message.file.type ≠ "image/gif" →
        downloadSuccess c9Message (controllerInit c9Message) ⟨[3], "a.gif", "image/gif"⟩
          = ({ controllerInit c9Message with downloading := false, downloaded := true },
             [Effect.saveAs [3] ("a.gif")]))) :=
  ⟨rfl, c9_file_gif_dispatch c9Message (controllerInit c9Message)
          ⟨[3], "a.gif", "image/gif"⟩ rfl⟩

/-- C10: a message carrying an embedded location payload is initialised with
the location stored and `downloaded` already true, with no fetch in progress
or scheduled — location attachments are born downloaded. -/
theorem c10_location_init (m : Message) (loc : LocationInfo)
    (h : m.location = some loc) :
    (controllerInit m).downloaded = true
    ∧ (controllerInit m).location = some loc
    ∧ (controllerInit m).downloading = false
    ∧ (controllerInit m).thumbnailDownloading = false
    ∧ (controllerInit m).timerPending = false
    ∧ (controllerInit m).fetchInFlight = false := by
  simp [controllerInit, h]

/-- Message fixture for claim C10: a location message. -/
def c10Message : Message := ⟨"location", "12", none, none, ⟨""⟩, some ⟨47, 8⟩, none⟩

theorem c10_location_init_witness :
    c10Message.location = some ⟨47, 8⟩
    ∧ ((controllerInit c10Message).downloaded = true
       ∧ (controllerInit c10Message).location = some ⟨47, 8⟩
       ∧ (controllerInit c10Message).downloading = false
       ∧ (controllerInit c10Message).thumbnailDownloading = false
       ∧ (controllerInit c10Message).timerPending = false
       ∧ (controllerInit c10Message).fetchInFlight = false) :=
  ⟨rfl, c10_location_init c10Message ⟨47, 8⟩ rfl⟩

end ThreemaWeb
